import Mathlib

/-!
# WebAuthn demo server: challenge lifecycle of the four handlers of `main.go`

A shallow embedding of `startRegistration`, `finishRegistration`,
`startAuthentication` and `finishAuthentication`.  The handlers are state
transformers over a `World` that holds the contents of the record store, a
counter for the random sources and the trace of every collaborator call.
A handler ends in one of three ways: it sends a response, it returns a Go
`error` (turned into an HTTP status by `HTTPErrorHandler`), or it dereferences
a nil `*dbDevice` and the goroutine panics.
-/

namespace WebauthnDemo

/-! ## Data model -/

/-- Go `[]byte`: the byte values in order; the nil slice and the empty slice
are both `[]`. -/
abbrev Bytes := List Nat

/-- Modelled from the spec: `webauthn.UserEntity`, declared in the webauthn
library: an opaque identifier, the name (the storage key) and a display name. -/
structure UserEntity where
  ID : Bytes
  Name : String
  DisplayName : String
  deriving DecidableEq, Repr

/-- Modelled from the spec: `webauthn.PublicKeyCredential`, declared in the
webauthn library.  The handlers read `RawID` only; everything else the client
sends (attestation or assertion) is carried as `Response` for the verifier. -/
structure PublicKeyCredential where
  RawID : Bytes
  Response : Bytes
  deriving DecidableEq, Repr

/-- The Go struct `dbDevice`. -/
structure dbDevice where
  Name : String
  Origin : String
  Challenge : Bytes
  CredentialID : String
  deriving DecidableEq, Repr

/-- The Go struct `dbItem`.  `Devices` is `map[string]*dbDevice`: `none` is the
nil map, `some m` a map given by its key/value pairs.  A key that is absent
and a key bound to a nil pointer index to the same nil `*dbDevice`. -/
structure dbItem where
  User : UserEntity
  Devices : Option (List (String × dbDevice))
  deriving DecidableEq, Repr

/-- Request body of `startRegistration`. -/
structure startRegistrationResponse where
  DeviceName : String
  Origin : String
  User : UserEntity
  deriving DecidableEq, Repr

/-- Request body of `finishRegistration` and `finishAuthentication`
(the embedded `webauthn.PublicKeyCredential` is the field `Credential`). -/
structure finishResponse where
  Credential : PublicKeyCredential
  User : UserEntity
  DeviceName : String
  deriving DecidableEq, Repr

/-- Request and response body of `startAuthentication`. -/
structure startAuthResponse where
  Challenge : String
  CredentialID : String
  DeviceName : String
  User : UserEntity
  deriving DecidableEq, Repr

/-- The `PublicKey` options of the `webauthn.RegistrationParts` that
`startRegistration` returns. -/
structure RegistrationParts where
  Challenge : Bytes
  RPName : String
  PubKeyCredParams : List (String × Int)
  Timeout : Nat
  User : UserEntity
  Attestation : String
  deriving DecidableEq, Repr

/-- A Go `error` value: an `*echo.HTTPError` or any other error, known by its
text. -/
inductive GoError where
  | http (code : Nat) (message : String)
  | plain (text : String)
  deriving DecidableEq, Repr

/-- The method `Error()`. -/
def GoError.Error : GoError → String
  | .http code message => "code=" ++ toString code ++ ", message=" ++ message
  | .plain text => text

/-- Go `strings.HasPrefix`. -/
def stringsHasPrefix (s pre : String) : Bool :=
  pre.data.isPrefixOf s.data

/-- Go `string(b)` for a byte slice: the same bytes, one character each. -/
def stringOfBytes (b : Bytes) : String :=
  String.mk (b.map Char.ofNat)

/-- Go `[]byte(s)` for the text of a UUID. -/
def bytesOfString (s : String) : Bytes :=
  s.data.map Char.toNat

/-! ## Strings in the record files

The driver keeps a record as JSON text.  `encoding/json` writes a `[]byte`
field as base64, which loses nothing, and a `string` field as text: a byte of
the string that is not part of a valid UTF-8 encoding is written as `\ufffd`. -/

/-- A UTF-8 continuation byte, `0x80` to `0xBF`. -/
def isCont (b : Nat) : Bool :=
  decide (128 ≤ b ∧ b ≤ 191)

/-- Go `utf8.DecodeRune` at the head of a byte sequence: the width of the valid
encoding that starts there, `0` when there is none (`RuneError` of width 1). -/
def runeSize : Bytes → Nat
  | [] => 0
  | b0 :: rest =>
    if b0 < 128 then 1
    else if 194 ≤ b0 ∧ b0 ≤ 223 then
      match rest with
      | b1 :: _ => if isCont b1 then 2 else 0
      | [] => 0
    else if 224 ≤ b0 ∧ b0 ≤ 239 then
      match rest with
      | b1 :: b2 :: _ =>
        if decide ((if b0 = 224 then 160 else 128) ≤ b1 ∧ b1 ≤ (if b0 = 237 then 159 else 191))
            && isCont b2 then 3 else 0
      | _ => 0
    else if 240 ≤ b0 ∧ b0 ≤ 244 then
      match rest with
      | b1 :: b2 :: b3 :: _ =>
        if decide ((if b0 = 240 then 144 else 128) ≤ b1 ∧ b1 ≤ (if b0 = 244 then 143 else 191))
            && isCont b2 && isCont b3 then 4 else 0
      | _ => 0
    else 0

/-- The bytes `encoding/json` keeps of a string: with `keep` bytes of a valid
encoding still to copy, every byte that starts no valid encoding becomes the
three bytes of U+FFFD. -/
def toValidUTF8 : Nat → Bytes → Bytes
  | _, [] => []
  | keep + 1, b :: rest => b :: toValidUTF8 keep rest
  | 0, b :: rest =>
    match runeSize (b :: rest) with
    | 0 => 239 :: 191 :: 189 :: toValidUTF8 0 rest
    | width + 1 => b :: toValidUTF8 width rest

/-- A Go string as a record file holds it and a later `db.Read` returns it. -/
def jsonString (s : String) : String :=
  stringOfBytes (toValidUTF8 0 (bytesOfString s))

/-! ## Go maps as key/value lists -/

/-- Map index `m[k]`. -/
def mapGet {β : Type} : List (String × β) → String → Option β
  | [], _ => none
  | (k, v) :: rest, key => if k = key then some v else mapGet rest key

/-- Map assignment `m[k] = v`. -/
def mapSet {β : Type} : List (String × β) → String → β → List (String × β)
  | [], key, v => [(key, v)]
  | (k, x) :: rest, key, v =>
    if k = key then (key, v) :: rest else (k, x) :: mapSet rest key v

/-- Builtin `delete(m, k)`. -/
def mapDelete {β : Type} : List (String × β) → String → List (String × β)
  | [], _ => []
  | (k, x) :: rest, key =>
    if k = key then mapDelete rest key else (k, x) :: mapDelete rest key

/-- The expression `entry.Devices[name]`: nil map and absent key give nil. -/
def dbItem.device (entry : dbItem) (name : String) : Option dbDevice :=
  match entry.Devices with
  | none => none
  | some m => mapGet m name

/-! ## base64 -/

/-- The alphabet of `base64.StdEncoding`. -/
def encodeStd : List Char :=
  "ABCDEFGHIJKLMNOPQRSTUVWXYZabcdefghijklmnopqrstuvwxyz0123456789+/".data

/-- One output character for a 6-bit value. -/
def sextet (n : Nat) : Char :=
  encodeStd.getD (n % 64) '='

/-- The characters of `base64.StdEncoding.EncodeToString`, with `=` padding. -/
def encodeChars : Bytes → List Char
  | [] => []
  | [a] => [sextet (a / 4), sextet (a % 4 * 16), '=', '=']
  | [a, b] => [sextet (a / 4), sextet (a % 4 * 16 + b / 16), sextet (b % 16 * 4), '=']
  | a :: b :: c :: rest =>
    sextet (a / 4) :: sextet (a % 4 * 16 + b / 16) :: sextet (b % 16 * 4 + c / 64)
      :: sextet (c % 64) :: encodeChars rest

/-- The Go function `base64Encode`. -/
def base64Encode (b : Bytes) : String :=
  String.mk (encodeChars b)

/-- The 6-bit value of a character of the alphabet. -/
def sextetValue (c : Char) : Option Nat :=
  if encodeStd.indexOf c < 64 then some (encodeStd.indexOf c) else none

/-- The bytes of `base64.StdEncoding.DecodeString`: four characters give three
bytes, and `=` padding closes a last group of one or two bytes. -/
def decodeChars : List Char → Option Bytes
  | [] => some []
  | c1 :: c2 :: c3 :: c4 :: rest =>
    match sextetValue c1, sextetValue c2 with
    | some s1, some s2 =>
      if c3 = '=' then
        if c4 = '=' ∧ rest = [] then some [s1 * 4 + s2 / 16] else none
      else
        match sextetValue c3 with
        | none => none
        | some s3 =>
          if c4 = '=' then
            if rest = [] then some [s1 * 4 + s2 / 16, s2 % 16 * 16 + s3 / 4] else none
          else
            match sextetValue c4, decodeChars rest with
            | some s4, some bs =>
              some ((s1 * 4 + s2 / 16) :: (s2 % 16 * 16 + s3 / 4) :: (s3 % 4 * 64 + s4) :: bs)
            | _, _ => none
    | _, _ => none
  | _ => none

/-- Reading a base64 text back, as the client does with the challenge. -/
def base64Decode (s : String) : Option Bytes :=
  decodeChars s.data

/-! ## The world: store, random sources, verifier -/

/-- One call to a collaborator, with its arguments. -/
inductive Event where
  | NewChallenge
  | NewUUID
  | Read (resource : String)
  | Write (resource : String) (v : dbItem)
  | ValidateRegistration (p : PublicKeyCredential) (chal : Bytes) (origin : String)
      (requireAttestation : Bool)
  | ValidateAuthentication (p : PublicKeyCredential) (chal : Bytes) (origin : String)
      (userID : String)
  deriving DecidableEq, Repr

/-- What the process can observe and change: the records of collection
`users` by resource name, how many random values have been drawn, and the
calls made so far, oldest first. -/
structure World where
  files : List (String × dbItem)
  draws : Nat
  trace : List Event
  deriving DecidableEq, Repr

/-- The behaviour of the collaborators: the flag `origin`, the random sources
(by number of earlier draws), injected I/O failures of the store and the two
verification routines (`none` is a nil error: the response is accepted). -/
structure Env where
  origin : String
  newChallenge : Nat → Except GoError Bytes
  newUUID : Nat → String
  readFault : String → Option GoError
  writeFault : String → Option GoError
  validateRegistration : PublicKeyCredential → Bytes → String → Bool → Option GoError
  validateAuthentication : PublicKeyCredential → Bytes → String → String → Option GoError

/-- The error of `os.Stat` on the file of a record that does not exist. -/
def statError (resource : String) : GoError :=
  .plain ("stat data/users/" ++ resource ++ ".json: no such file or directory")

/-- Modelled from the spec: `webauthn.NewChallenge`, of the webauthn library:
fresh random bytes, or an error when no entropy is available. -/
def NewChallenge (env : Env) (w : World) : Except GoError Bytes × World :=
  (env.newChallenge w.draws,
    { w with draws := w.draws + 1, trace := w.trace ++ [Event.NewChallenge] })

/-- Modelled from the spec: `uuid.New().String()`, of the uuid library: a
freshly assigned identifier. -/
def uuidNew (env : Env) (w : World) : String × World :=
  (env.newUUID w.draws,
    { w with draws := w.draws + 1, trace := w.trace ++ [Event.NewUUID] })

/-- Modelled from the spec: `db.Read(dbColletion, resource, &entry)`, of the
scribble driver: the record stored under the key, a not-found error (whose
text starts with `stat`) when there is none, or another I/O error. -/
def dbRead (env : Env) (w : World) (resource : String) : Except GoError dbItem × World :=
  let w1 := { w with trace := w.trace ++ [Event.Read resource] }
  match env.readFault resource with
  | some err => (.error err, w1)
  | none =>
    match mapGet w.files resource with
    | none => (.error (statError resource), w1)
    | some entry => (.ok entry, w1)

/-- Modelled from the spec: `db.Write(dbColletion, resource, entry)`, of the
scribble driver: full overwrite of the record under the key, or an I/O error
that leaves the store as it was. -/
def dbWrite (env : Env) (w : World) (resource : String) (entry : dbItem) :
    Option GoError × World :=
  let w1 := { w with trace := w.trace ++ [Event.Write resource entry] }
  match env.writeFault resource with
  | some err => (some err, w1)
  | none => (none, { w1 with files := mapSet w.files resource entry })

/-- Modelled from the spec: `webauthn.ValidateRegistration`, of the webauthn
library: the verification collaborator for attestation responses. -/
def ValidateRegistration (env : Env) (w : World) (p : PublicKeyCredential) (chal : Bytes)
    (origin : String) (requireAttestation : Bool) : Option GoError × World :=
  (env.validateRegistration p chal origin requireAttestation,
    { w with trace := w.trace ++ [Event.ValidateRegistration p chal origin requireAttestation] })

/-- Modelled from the spec: `webauthn.ValidateAuthentication`, of the webauthn
library: the verification collaborator for signed assertions. -/
def ValidateAuthentication (env : Env) (w : World) (p : PublicKeyCredential) (chal : Bytes)
    (origin : String) (userID : String) : Option GoError × World :=
  (env.validateAuthentication p chal origin userID,
    { w with trace := w.trace ++ [Event.ValidateAuthentication p chal origin userID] })

/-! ## Handlers -/

/-- The body a handler sends. -/
inductive Body where
  | noContent
  | registration (r : RegistrationParts)
  | startAuth (r : startAuthResponse)
  deriving DecidableEq, Repr

/-- How a handler ends: `c.JSON` or `c.NoContent` with a status, a returned
error, or a runtime panic on a nil `*dbDevice` (or a write to a nil map). -/
inductive Outcome where
  | response (status : Nat) (body : Body)
  | failed (err : GoError)
  | nilDereference
  deriving DecidableEq, Repr

/-- A response was sent with a 2xx status. -/
def Outcome.isSuccess : Outcome → Bool
  | .response status _ => decide (200 ≤ status ∧ status < 300)
  | _ => false

/-- The status and text that `e.HTTPErrorHandler` of `main` sends for a
returned error. -/
def HTTPErrorHandler : GoError → Nat × String
  | .http code message => if code = 404 then (code, "") else (code, message)
  | .plain text => (500, text)

/-- Lines 109 to 145 of `startRegistration`: set the display name, bind a new
device record under the device name, write, answer with the descriptor. -/
def storeDevice (env : Env) (b : startRegistrationResponse) (chal : Bytes) (entry : dbItem)
    (w : World) : Outcome × World :=
  let entry := { entry with User := { entry.User with DisplayName := b.User.DisplayName } }
  let entry :=
    match entry.Devices with
    | none => { entry with Devices := some [] }
    | some _ => entry
  match entry.Devices with
  | none => (.nilDereference, w)
  | some m =>
    let entry := { entry with Devices := some (mapSet m b.DeviceName
      { Name := b.DeviceName, Origin := b.Origin, Challenge := chal, CredentialID := "" }) }
    match dbWrite env w b.User.Name entry with
    | (some err, w) => (.failed err, w)
    | (none, w) =>
      (.response 201 (.registration
        { Challenge := chal
          RPName := "mvndaai-webauth-demo"
          PubKeyCredParams := [("public-key", -7)]
          Timeout := 500000
          User := entry.User
          Attestation := "direct" }), w)

/-- The handler `startRegistration`, from the decoded request body on. -/
def startRegistration (env : Env) (b : startRegistrationResponse) (w : World) :
    Outcome × World :=
  if b.User.Name = "" then
    (.failed (.http 400 "username required"), w)
  else
    match NewChallenge env w with
    | (.error err, w) => (.failed err, w)
    | (.ok chal, w) =>
      match dbRead env w b.User.Name with
      | (.error err, w) =>
        if !stringsHasPrefix err.Error "stat" then
          (.failed err, w)
        else
          match uuidNew env w with
          | (id, w) =>
            storeDevice env b chal
              { User := { ID := bytesOfString id, Name := b.User.Name, DisplayName := "" }
                Devices := none } w
      | (.ok entry, w) => storeDevice env b chal entry w

/-- The handler `finishRegistration`, from the bound request body on.  The
entry is built for `db.Write`, after which the handler does not use it: the
`string` field `CredentialID` is given as the record file holds
`string(b.RawID)`, see `jsonString`. -/
def finishRegistration (env : Env) (b : finishResponse) (w : World) : Outcome × World :=
  match dbRead env w b.User.Name with
  | (.error err, w) => (.failed err, w)
  | (.ok entry, w) =>
    match entry.device b.DeviceName with
    | none => (.nilDereference, w)
    | some pending =>
      match ValidateRegistration env w b.Credential pending.Challenge env.origin false with
      | (err, w) =>
        let entry :=
          match err with
          | some _ => { entry with Devices := entry.Devices.map (fun m => mapDelete m b.DeviceName) }
          | none => entry
        match entry.device b.DeviceName with
        | none => (.nilDereference, w)
        | some device =>
          let device :=
            { device with
              Challenge := []
              CredentialID := jsonString (stringOfBytes b.Credential.RawID) }
          match entry.Devices with
          | none => (.nilDereference, w)
          | some m =>
            let entry := { entry with Devices := some (mapSet m b.DeviceName device) }
            match dbWrite env w b.User.Name entry with
            | (some err, w) => (.failed err, w)
            | (none, w) => (.response 201 .noContent, w)

/-- The handler `startAuthentication`, from the bound request body on. -/
def startAuthentication (env : Env) (b : startAuthResponse) (w : World) : Outcome × World :=
  match dbRead env w b.User.Name with
  | (.error err, w) => (.failed err, w)
  | (.ok entry, w) =>
    match NewChallenge env w with
    | (.error err, w) => (.failed err, w)
    | (.ok chal, w) =>
      match entry.device b.DeviceName with
      | none => (.nilDereference, w)
      | some device =>
        let device := { device with Challenge := chal }
        match entry.Devices with
        | none => (.nilDereference, w)
        | some m =>
          let entry := { entry with Devices := some (mapSet m b.DeviceName device) }
          match dbWrite env w b.User.Name entry with
          | (some err, w) => (.failed err, w)
          | (none, w) =>
            (.response 201 (.startAuth
              { Challenge := base64Encode chal
                CredentialID := device.CredentialID
                DeviceName := ""
                User := { ID := [], Name := "", DisplayName := "" } }), w)

/-- The handler `finishAuthentication`, from the bound request body on. -/
def finishAuthentication (env : Env) (b : finishResponse) (w : World) : Outcome × World :=
  match dbRead env w b.User.Name with
  | (.error err, w) => (.failed err, w)
  | (.ok entry, w) =>
    match entry.device b.DeviceName with
    | none => (.nilDereference, w)
    | some device =>
      let chal := device.Challenge
      let device := { device with Challenge := [] }
      match entry.Devices with
      | none => (.nilDereference, w)
      | some m =>
        let entry := { entry with Devices := some (mapSet m b.DeviceName device) }
        match dbWrite env w b.User.Name entry with
        | (some err, w) => (.failed err, w)
        | (none, w) =>
          match ValidateAuthentication env w b.Credential chal env.origin
              (stringOfBytes entry.User.ID) with
          | (some err, w) => (.failed err, w)
          | (none, w) => (.response 201 .noContent, w)

/-! ## A concrete world for the examples -/

/-- A pending challenge. -/
def chalC : Bytes := [1, 2, 3]

/-- Alice with device `phone` holding the pending challenge `chalC`. -/
def aliceItem : dbItem :=
  { User := { ID := [117, 49], Name := "alice", DisplayName := "Alice" }
    Devices := some [("phone",
      { Name := "phone", Origin := "http://localhost:8080", Challenge := chalC,
        CredentialID := "" })] }

/-- A store holding the record of Alice only. -/
def world0 : World :=
  { files := [("alice", aliceItem)], draws := 0, trace := [] }

/-- A client response with raw credential identifier `AB`. -/
def cred0 : PublicKeyCredential :=
  { RawID := [65, 66], Response := [9] }

/-- Collaborators without I/O failures; the verifiers accept a response
exactly against the challenge `chalC`. -/
def envBound : Env :=
  { origin := "http://localhost:8080"
    newChallenge := fun n => .ok [n + 7, 8]
    newUUID := fun _ => "u2"
    readFault := fun _ => none
    writeFault := fun _ => none
    validateRegistration := fun _ chal _ _ =>
      if chal = chalC then none else some (.plain "challenge mismatch")
    validateAuthentication := fun _ chal _ _ =>
      if chal = chalC then none else some (.plain "challenge mismatch") }

/-- Collaborators without I/O failures whose verifiers reject everything. -/
def envReject : Env :=
  { envBound with
    validateRegistration := fun _ _ _ _ => some (.plain "invalid attestation")
    validateAuthentication := fun _ _ _ _ => some (.plain "invalid assertion") }

/-- The finish request of Alice for device `phone`. -/
def finishAlice : finishResponse :=
  { Credential := cred0
    User := { ID := [], Name := "alice", DisplayName := "" }
    DeviceName := "phone" }

/-- An authentication-start request for a user and a device. -/
def startAuthOf (user device : String) : startAuthResponse :=
  { Challenge := "", CredentialID := "", DeviceName := device
    User := { ID := [], Name := user, DisplayName := "" } }

/-- A registration-start request for a user and a device. -/
def startRegOf (user device : String) : startRegistrationResponse :=
  { DeviceName := device, Origin := "http://localhost:8080"
    User := { ID := [], Name := user, DisplayName := "A." } }

/-! ## Records and worlds named in the statements -/

/-- The record `finishRegistration` writes after an accepted response. -/
def boundEntry (entry : dbItem) (m : List (String × dbDevice)) (b : finishResponse)
    (pending : dbDevice) : dbItem :=
  { entry with Devices := some (mapSet m b.DeviceName
      { pending with
        Challenge := []
        CredentialID := jsonString (stringOfBytes b.Credential.RawID) }) }

/-- The record `finishAuthentication` writes. -/
def consumedEntry (entry : dbItem) (m : List (String × dbDevice)) (name : String)
    (device : dbDevice) : dbItem :=
  { entry with Devices := some (mapSet m name { device with Challenge := [] }) }

/-- The device `phone` of Alice as stored in `world0`. -/
def alicePhone : dbDevice :=
  { Name := "phone", Origin := "http://localhost:8080", Challenge := chalC, CredentialID := "" }

/-- The record `startRegistration` writes for a request, a challenge and the
entry it starts from. -/
def pendingEntry (b : startRegistrationResponse) (chal : Bytes) (entry : dbItem) : dbItem :=
  { User := { entry.User with DisplayName := b.User.DisplayName }
    Devices := some (mapSet (entry.Devices.getD []) b.DeviceName
      { Name := b.DeviceName, Origin := b.Origin, Challenge := chal, CredentialID := "" }) }

/-- The descriptor `startRegistration` returns. -/
def descriptor (chal : Bytes) (user : UserEntity) : RegistrationParts :=
  { Challenge := chal
    RPName := "mvndaai-webauth-demo"
    PubKeyCredParams := [("public-key", -7)]
    Timeout := 500000
    User := user
    Attestation := "direct" }

/-- The entry `startRegistration` builds when the read reports no record. -/
def freshEntry (env : Env) (b : startRegistrationResponse) (w : World) : dbItem :=
  { User := { ID := bytesOfString (env.newUUID (w.draws + 1)), Name := b.User.Name,
              DisplayName := "" }
    Devices := none }

/-- Alice with device `phone` registered: credential identifier `AB`, no
pending challenge. -/
def worldBound : World :=
  { files := [("alice",
      { User := { ID := [117, 49], Name := "alice", DisplayName := "Alice" }
        Devices := some [("phone",
          { Name := "phone", Origin := "http://localhost:8080", Challenge := [],
            CredentialID := "AB" })] })]
    draws := 0
    trace := [] }

/-- The finish request of Alice for the device `tablet`, never started. -/
def finishTablet : finishResponse :=
  { Credential := cred0
    User := { ID := [], Name := "alice", DisplayName := "" }
    DeviceName := "tablet" }

/-- A client response with the given raw credential identifier. -/
def credRaw (id : Bytes) : PublicKeyCredential :=
  { RawID := id, Response := [9] }

/-- The finish request of Alice for device `phone` with the given raw
credential identifier. -/
def finishRaw (id : Bytes) : finishResponse :=
  { Credential := credRaw id
    User := { ID := [], Name := "alice", DisplayName := "" }
    DeviceName := "phone" }

/-! ## Lemmas on maps and errors -/

theorem mapGet_mapSet_self {β : Type} (m : List (String × β)) (key : String) (v : β) :
    mapGet (mapSet m key v) key = some v := by
  induction m with
  | nil => simp [mapSet, mapGet]
  | cons p rest ih =>
    obtain ⟨k, x⟩ := p
    by_cases h : k = key
    · simp [mapSet, mapGet, h]
    · simp [mapSet, mapGet, h, ih]

theorem mapGet_mapSet_other {β : Type} (m : List (String × β)) (key other : String) (v : β)
    (hne : other ≠ key) : mapGet (mapSet m key v) other = mapGet m other := by
  induction m with
  | nil => simp [mapSet, mapGet, Ne.symm hne]
  | cons p rest ih =>
    obtain ⟨k, x⟩ := p
    by_cases h : k = key
    · subst h
      simp [mapSet, mapGet, Ne.symm hne]
    · by_cases h2 : k = other
      · subst h2
        simp [mapSet, mapGet, h]
      · simp [mapSet, mapGet, h, h2, ih]

theorem mapGet_mapDelete_self {β : Type} (m : List (String × β)) (key : String) :
    mapGet (mapDelete m key) key = none := by
  induction m with
  | nil => simp [mapDelete, mapGet]
  | cons p rest ih =>
    obtain ⟨k, x⟩ := p
    by_cases h : k = key
    · simp [mapDelete, h, ih]
    · simp [mapDelete, mapGet, h, ih]

theorem statError_stat (resource : String) :
    stringsHasPrefix (statError resource).Error "stat" = true := by
  simp [stringsHasPrefix, statError, GoError.Error, String.data_append]

theorem device_some_devices (entry : dbItem) (name : String) (d : dbDevice)
    (h : entry.device name = some d) :
    ∃ m, entry.Devices = some m ∧ mapGet m name = some d := by
  unfold dbItem.device at h
  cases hm : entry.Devices with
  | none => simp [hm] at h
  | some m => exact ⟨m, rfl, by simpa [hm] using h⟩

theorem finishRegistration_run_accept (env : Env) (b : finishResponse) (w : World)
    (entry : dbItem) (m : List (String × dbDevice)) (pending : dbDevice)
    (hread : env.readFault b.User.Name = none)
    (hwrite : env.writeFault b.User.Name = none)
    (hrec : mapGet w.files b.User.Name = some entry)
    (hm : entry.Devices = some m)
    (hget : mapGet m b.DeviceName = some pending)
    (hok : env.validateRegistration b.Credential pending.Challenge env.origin false = none) :
    finishRegistration env b w =
      (.response 201 .noContent,
        { files := mapSet w.files b.User.Name (boundEntry entry m b pending)
          draws := w.draws
          trace := w.trace ++
            [Event.Read b.User.Name,
             Event.ValidateRegistration b.Credential pending.Challenge env.origin false,
             Event.Write b.User.Name (boundEntry entry m b pending)] }) := by
  simp [finishRegistration, dbRead, hread, hrec, dbItem.device, hget, ValidateRegistration, hok,
    dbWrite, hwrite, hm, boundEntry]

theorem finishRegistration_run_reject (env : Env) (b : finishResponse) (w : World)
    (entry : dbItem) (pending : dbDevice) (err : GoError)
    (hread : env.readFault b.User.Name = none)
    (hrec : mapGet w.files b.User.Name = some entry)
    (hdev : entry.device b.DeviceName = some pending)
    (hrej : env.validateRegistration b.Credential pending.Challenge env.origin false =
      some err) :
    finishRegistration env b w =
      (.nilDereference,
        { files := w.files
          draws := w.draws
          trace := w.trace ++
            [Event.Read b.User.Name,
             Event.ValidateRegistration b.Credential pending.Challenge env.origin false] }) := by
  obtain ⟨m, hm, hget⟩ := device_some_devices entry b.DeviceName pending hdev
  simp [finishRegistration, dbRead, hread, hrec, dbItem.device, hget, ValidateRegistration, hrej,
    hm, mapGet_mapDelete_self]

theorem finishAuthentication_run (env : Env) (b : finishResponse) (w : World)
    (entry : dbItem) (m : List (String × dbDevice)) (device : dbDevice)
    (hread : env.readFault b.User.Name = none)
    (hwrite : env.writeFault b.User.Name = none)
    (hrec : mapGet w.files b.User.Name = some entry)
    (hm : entry.Devices = some m)
    (hget : mapGet m b.DeviceName = some device) :
    finishAuthentication env b w =
      ((match env.validateAuthentication b.Credential device.Challenge env.origin
            (stringOfBytes entry.User.ID) with
          | none => Outcome.response 201 .noContent
          | some err => Outcome.failed err),
        { files := mapSet w.files b.User.Name (consumedEntry entry m b.DeviceName device)
          draws := w.draws
          trace := w.trace ++
            [Event.Read b.User.Name,
             Event.Write b.User.Name (consumedEntry entry m b.DeviceName device),
             Event.ValidateAuthentication b.Credential device.Challenge env.origin
               (stringOfBytes entry.User.ID)] }) := by
  cases hv : env.validateAuthentication b.Credential device.Challenge env.origin
      (stringOfBytes entry.User.ID) <;>
    simp [finishAuthentication, dbRead, hread, hrec, dbItem.device, hget, ValidateAuthentication,
      hv, dbWrite, hwrite, hm, consumedEntry]

/-! ## Registration finish -/

theorem finishRegistration_accept_writes (env : Env) (b : finishResponse) (w : World)
    (entry : dbItem) (pending : dbDevice)
    (hread : env.readFault b.User.Name = none)
    (hwrite : env.writeFault b.User.Name = none)
    (hrec : mapGet w.files b.User.Name = some entry)
    (hdev : entry.device b.DeviceName = some pending)
    (hok : env.validateRegistration b.Credential pending.Challenge env.origin false = none) :
    ∃ written : dbItem,
      finishRegistration env b w =
        (.response 201 .noContent,
          { files := mapSet w.files b.User.Name written
            draws := w.draws
            trace := w.trace ++
              [Event.Read b.User.Name,
               Event.ValidateRegistration b.Credential pending.Challenge env.origin false,
               Event.Write b.User.Name written] }) ∧
      written.device b.DeviceName =
        some { Name := pending.Name, Origin := pending.Origin, Challenge := [],
               CredentialID := jsonString (stringOfBytes b.Credential.RawID) } ∧
      written.User = entry.User ∧
      (∀ other, other ≠ b.DeviceName → written.device other = entry.device other) ∧
      mapGet (finishRegistration env b w).2.files b.User.Name = some written := by
  obtain ⟨m, hm, hget⟩ := device_some_devices entry b.DeviceName pending hdev
  have hrun := finishRegistration_run_accept env b w entry m pending hread hwrite hrec hm hget hok
  refine ⟨boundEntry entry m b pending, hrun, ?_, rfl, ?_, ?_⟩
  · simp [boundEntry, dbItem.device, mapGet_mapSet_self]
  · intro other hne
    simp [boundEntry, dbItem.device, hm, mapGet_mapSet_other _ _ _ _ hne]
  · rw [hrun]
    simp [mapGet_mapSet_self]

theorem toValidUTF8_ascii (b : Bytes) (h : ∀ x ∈ b, x < 128) : toValidUTF8 0 b = b := by
  induction b with
  | nil => rfl
  | cons x rest ih =>
    have hx : x < 128 := h x (by simp)
    have hrest : ∀ y ∈ rest, y < 128 := fun y hy => h y (by simp [hy])
    simp [toValidUTF8, runeSize, hx, ih hrest]

theorem bytesOfString_stringOfBytes_ascii (b : Bytes) (h : ∀ x ∈ b, x < 128) :
    bytesOfString (stringOfBytes b) = b := by
  induction b with
  | nil => rfl
  | cons x rest ih =>
    have hx : x < 128 := h x (by simp)
    have hrest : ∀ y ∈ rest, y < 128 := fun y hy => h y (by simp [hy])
    have ih2 := ih hrest
    simp only [bytesOfString, stringOfBytes, List.map_cons, List.map_map] at ih2 ⊢
    have hv : x.isValidChar := Or.inl (by omega)
    have hc : (Char.ofNat x).toNat = x := by
      simp [Char.ofNat, hv, Char.ofNatAux, Char.toNat, UInt32.toNat]
    rw [hc]
    simpa using ih2

theorem jsonString_ascii (b : Bytes) (h : ∀ x ∈ b, x < 128) :
    jsonString (stringOfBytes b) = stringOfBytes b := by
  simp [jsonString, bytesOfString_stringOfBytes_ascii b h, toValidUTF8_ascii b h]

/-- C6: at the store of Alice with `phone` pending, a response with the raw
credential identifier `[200]` that the verifier accepts against the stored
challenge: `finishRegistration` answers 201 with an empty body and writes the
record once with the challenge of `phone` cleared, but the credential
identifier the store then holds is U+FFFD (bytes 239, 191, 189), not the raw
identifier; the raw identifier `[201]` leaves the same store contents, and the
following `startAuthentication` hands out U+FFFD.  The raw identifier `AB` is
kept as it is. -/
theorem finishRegistration_accepted_identifier_lost :
    finishRegistration envBound (finishRaw [200]) world0 =
      (.response 201 .noContent,
        { files := [("alice",
            { User := { ID := [117, 49], Name := "alice", DisplayName := "Alice" }
              Devices := some [("phone",
                { Name := "phone", Origin := "http://localhost:8080", Challenge := [],
                  CredentialID := stringOfBytes [239, 191, 189] })] })]
          draws := 0
          trace := [Event.Read "alice",
            Event.ValidateRegistration (credRaw [200]) chalC "http://localhost:8080" false,
            Event.Write "alice"
              { User := { ID := [117, 49], Name := "alice", DisplayName := "Alice" }
                Devices := some [("phone",
                  { Name := "phone", Origin := "http://localhost:8080", Challenge := [],
                    CredentialID := stringOfBytes [239, 191, 189] })] }] }) ∧
    stringOfBytes [239, 191, 189] ≠ stringOfBytes [200] ∧
    bytesOfString (stringOfBytes [200]) = [200] ∧
    (finishRegistration envBound (finishRaw [201]) world0).2.files =
      (finishRegistration envBound (finishRaw [200]) world0).2.files ∧
    (startAuthentication envBound (startAuthOf "alice" "phone")
        (finishRegistration envBound (finishRaw [200]) world0).2).1 =
      .response 201 (.startAuth
        { Challenge := "Bwg="
          CredentialID := stringOfBytes [239, 191, 189]
          DeviceName := ""
          User := { ID := [], Name := "", DisplayName := "" } }) ∧
    mapGet (finishRegistration envBound (finishRaw [65, 66]) world0).2.files "alice" =
      some
        { User := { ID := [117, 49], Name := "alice", DisplayName := "Alice" }
          Devices := some [("phone",
            { Name := "phone", Origin := "http://localhost:8080", Challenge := [],
              CredentialID := "AB" })] } := by
  refine ⟨by decide, by decide, by decide, by decide, by decide, by decide⟩

/-! ## base64: the text decodes to the bytes -/

theorem sextet_value_lt : ∀ n, n < 64 → sextetValue (sextet n) = some n ∧ sextet n ≠ '=' := by
  decide

theorem sextetValue_sextet (n : Nat) (h : n < 64) : sextetValue (sextet n) = some n :=
  (sextet_value_lt n h).1

theorem sextet_ne_pad (n : Nat) (h : n < 64) : sextet n ≠ '=' :=
  (sextet_value_lt n h).2

theorem decodeChars_encodeChars (b : Bytes) (h : ∀ x ∈ b, x < 256) :
    decodeChars (encodeChars b) = some b := by
  induction b using encodeChars.induct with
  | case1 => simp [encodeChars, decodeChars]
  | case2 a =>
    have ha : a < 256 := h a (by simp)
    have h1 := sextetValue_sextet (a / 4) (by omega)
    have h2 := sextetValue_sextet (a % 4 * 16) (by omega)
    simp only [encodeChars, decodeChars, h1, h2]
    simp
    omega
  | case3 a c =>
    have ha : a < 256 := h a (by simp)
    have hc : c < 256 := h c (by simp)
    have h1 := sextetValue_sextet (a / 4) (by omega)
    have h2 := sextetValue_sextet (a % 4 * 16 + c / 16) (by omega)
    have h3 := sextetValue_sextet (c % 16 * 4) (by omega)
    have n3 := sextet_ne_pad (c % 16 * 4) (by omega)
    simp only [encodeChars, decodeChars, h1, h2, h3, n3]
    simp
    omega
  | case4 a c d rest ih =>
    have ha : a < 256 := h a (by simp)
    have hc : c < 256 := h c (by simp)
    have hd : d < 256 := h d (by simp)
    have hrest : ∀ x ∈ rest, x < 256 := fun x hx => h x (by simp [hx])
    have h1 := sextetValue_sextet (a / 4) (by omega)
    have h2 := sextetValue_sextet (a % 4 * 16 + c / 16) (by omega)
    have h3 := sextetValue_sextet (c % 16 * 4 + d / 64) (by omega)
    have h4 := sextetValue_sextet (d % 64) (by omega)
    have n3 := sextet_ne_pad (c % 16 * 4 + d / 64) (by omega)
    have n4 := sextet_ne_pad (d % 64) (by omega)
    simp only [encodeChars, decodeChars, h1, h2, h3, h4, n3, n4, ih hrest]
    simp
    omega

theorem base64Decode_base64Encode (b : Bytes) (h : ∀ x ∈ b, x < 256) :
    base64Decode (base64Encode b) = some b := by
  simp [base64Decode, base64Encode, decodeChars_encodeChars b h]

/-! ## Authentication -/

/-- C8: when the store holds a record with the named device and a challenge is
minted, then (the store performing the read and the write)
`startAuthentication` writes the record in which that device holds the new
challenge and its credential identifier as before, and answers 201 with the
base64 text of that challenge and the stored credential identifier: the text
in the answer is `base64Encode` of the challenge and, the challenge being
bytes, decodes to the challenge that was stored. -/
theorem startAuthentication_issues (env : Env) (b : startAuthResponse) (w : World)
    (entry : dbItem) (device : dbDevice) (chal : Bytes)
    (hread : env.readFault b.User.Name = none)
    (hwrite : env.writeFault b.User.Name = none)
    (hrec : mapGet w.files b.User.Name = some entry)
    (hdev : entry.device b.DeviceName = some device)
    (hchal : env.newChallenge w.draws = .ok chal) :
    ∃ written : dbItem,
      startAuthentication env b w =
        (.response 201 (.startAuth
            { Challenge := base64Encode chal
              CredentialID := device.CredentialID
              DeviceName := ""
              User := { ID := [], Name := "", DisplayName := "" } }),
          { files := mapSet w.files b.User.Name written
            draws := w.draws + 1
            trace := w.trace ++
              [Event.Read b.User.Name, Event.NewChallenge, Event.Write b.User.Name written] }) ∧
      written.device b.DeviceName =
        some { Name := device.Name, Origin := device.Origin, Challenge := chal,
               CredentialID := device.CredentialID } ∧
      written.User = entry.User ∧
      (∀ other, other ≠ b.DeviceName → written.device other = entry.device other) ∧
      mapGet (startAuthentication env b w).2.files b.User.Name = some written ∧
      (∀ r : startAuthResponse,
        (startAuthentication env b w).1 = .response 201 (.startAuth r) →
        (∀ x ∈ chal, x < 256) →
        base64Decode r.Challenge = some chal ∧ r.CredentialID = device.CredentialID) := by
  obtain ⟨m, hm, hget⟩ := device_some_devices entry b.DeviceName device hdev
  have hrun : startAuthentication env b w =
      (.response 201 (.startAuth
          { Challenge := base64Encode chal
            CredentialID := device.CredentialID
            DeviceName := ""
            User := { ID := [], Name := "", DisplayName := "" } }),
        { files := mapSet w.files b.User.Name { entry with Devices := some (mapSet m b.DeviceName
            { device with Challenge := chal }) }
          draws := w.draws + 1
          trace := w.trace ++
            [Event.Read b.User.Name, Event.NewChallenge,
             Event.Write b.User.Name { entry with Devices := some (mapSet m b.DeviceName
            { device with Challenge := chal }) }] }) := by
    simp [startAuthentication, dbRead, hread, hrec, hdev, NewChallenge, hchal, dbWrite,
      hwrite, hm]
  refine ⟨{ entry with Devices := some (mapSet m b.DeviceName { device with Challenge := chal }) },
    hrun, ?_, rfl, ?_, ?_, ?_⟩
  · simp [dbItem.device, mapGet_mapSet_self]
  · intro other hne
    simp [dbItem.device, hm, mapGet_mapSet_other _ _ _ _ hne]
  · rw [hrun]
    simp [mapGet_mapSet_self]
  · intro r hr hbytes
    rw [hrun] at hr
    simp only [Outcome.response.injEq, Body.startAuth.injEq, true_and] at hr
    subst hr
    exact ⟨base64Decode_base64Encode chal hbytes, rfl⟩

/-- C3: when the store holds a record with the named device, then (the store
performing the read and the write) `finishAuthentication` writes the record
with that device's challenge cleared, then calls the verifier with the
challenge that was stored before the call, the configured origin and the
stored user identifier, makes no further call, and succeeds exactly when the
verifier accepts. -/
theorem finishAuthentication_consumes (env : Env) (b : finishResponse) (w : World)
    (entry : dbItem) (device : dbDevice)
    (hread : env.readFault b.User.Name = none)
    (hwrite : env.writeFault b.User.Name = none)
    (hrec : mapGet w.files b.User.Name = some entry)
    (hdev : entry.device b.DeviceName = some device) :
    ∃ written : dbItem,
      written.device b.DeviceName =
        some { Name := device.Name, Origin := device.Origin, Challenge := [],
               CredentialID := device.CredentialID } ∧
      written.User = entry.User ∧
      (∀ other, other ≠ b.DeviceName → written.device other = entry.device other) ∧
      (finishAuthentication env b w).2 =
        { files := mapSet w.files b.User.Name written
          draws := w.draws
          trace := w.trace ++
            [Event.Read b.User.Name,
             Event.Write b.User.Name written,
             Event.ValidateAuthentication b.Credential device.Challenge env.origin
               (stringOfBytes entry.User.ID)] } ∧
      (finishAuthentication env b w).1 =
        (match env.validateAuthentication b.Credential device.Challenge env.origin
            (stringOfBytes entry.User.ID) with
          | none => Outcome.response 201 .noContent
          | some err => Outcome.failed err) ∧
      ((finishAuthentication env b w).1.isSuccess = true ↔
        env.validateAuthentication b.Credential device.Challenge env.origin
          (stringOfBytes entry.User.ID) = none) := by
  obtain ⟨m, hm, hget⟩ := device_some_devices entry b.DeviceName device hdev
  refine ⟨{ entry with Devices := some (mapSet m b.DeviceName { device with Challenge := [] }) },
    ?_, rfl, ?_, ?_, ?_, ?_⟩
  · simp [dbItem.device, mapGet_mapSet_self]
  · intro other hne
    simp [dbItem.device, hm, mapGet_mapSet_other _ _ _ _ hne]
  · cases hv : env.validateAuthentication b.Credential device.Challenge env.origin
        (stringOfBytes entry.User.ID) <;>
      simp [finishAuthentication, dbRead, hread, hrec, hdev, ValidateAuthentication, hv, dbWrite,
        hwrite, hm]
  · cases hv : env.validateAuthentication b.Credential device.Challenge env.origin
        (stringOfBytes entry.User.ID) <;>
      simp [finishAuthentication, dbRead, hread, hrec, hdev, ValidateAuthentication, hv, dbWrite,
        hwrite, hm]
  · cases hv : env.validateAuthentication b.Credential device.Challenge env.origin
        (stringOfBytes entry.User.ID) <;>
      simp [finishAuthentication, dbRead, hread, hrec, hdev, ValidateAuthentication, hv, dbWrite,
        hwrite, hm, Outcome.isSuccess]

/-- Witness for C8: Alice starts an authentication with `phone`; the challenge
`[7, 8]` is handed out as the text `Bwg=`. -/
theorem startAuthentication_issues_witness :
    ∃ written : dbItem,
      startAuthentication envBound (startAuthOf "alice" "phone") world0 =
        (.response 201 (.startAuth
            { Challenge := "Bwg="
              CredentialID := ""
              DeviceName := ""
              User := { ID := [], Name := "", DisplayName := "" } }),
          { files := [("alice", written)]
            draws := 1
            trace :=
              [Event.Read "alice", Event.NewChallenge, Event.Write "alice" written] }) ∧
      written.device "phone" =
        some { Name := "phone", Origin := "http://localhost:8080", Challenge := [7, 8],
               CredentialID := "" } ∧
      written.User = aliceItem.User ∧
      (∀ other, other ≠ "phone" → written.device other = aliceItem.device other) ∧
      mapGet (startAuthentication envBound (startAuthOf "alice" "phone") world0).2.files "alice" =
        some written ∧
      base64Decode "Bwg=" = some [7, 8] := by
  obtain ⟨written, hrun, hdev, huser, hother, hget, hdec⟩ :=
    startAuthentication_issues envBound (startAuthOf "alice" "phone") world0 aliceItem alicePhone
      [7, 8] rfl rfl (by decide) (by decide) rfl
  exact ⟨written, hrun, hdev, huser, hother, hget,
    (hdec
      { Challenge := "Bwg=", CredentialID := "", DeviceName := ""
        User := { ID := [], Name := "", DisplayName := "" } }
      (by rw [hrun]; rfl) (by decide)).1⟩

/-- Witness for C3: Alice finishes an authentication with `phone`. -/
theorem finishAuthentication_consumes_witness :
    ∃ written : dbItem,
      written.device "phone" =
        some { Name := "phone", Origin := "http://localhost:8080", Challenge := [],
               CredentialID := "" } ∧
      written.User = aliceItem.User ∧
      (∀ other, other ≠ "phone" → written.device other = aliceItem.device other) ∧
      (finishAuthentication envBound finishAlice world0).2 =
        { files := mapSet world0.files "alice" written
          draws := 0
          trace := [] ++
            [Event.Read "alice",
             Event.Write "alice" written,
             Event.ValidateAuthentication cred0 chalC "http://localhost:8080"
               (stringOfBytes [117, 49])] } ∧
      (finishAuthentication envBound finishAlice world0).1 =
        (match envBound.validateAuthentication cred0 chalC "http://localhost:8080"
            (stringOfBytes [117, 49]) with
          | none => Outcome.response 201 .noContent
          | some err => Outcome.failed err) ∧
      ((finishAuthentication envBound finishAlice world0).1.isSuccess = true ↔
        envBound.validateAuthentication cred0 chalC "http://localhost:8080"
          (stringOfBytes [117, 49]) = none) :=
  finishAuthentication_consumes envBound finishAlice world0 aliceItem alicePhone
    rfl rfl (by decide) (by decide)

/-! ## Registration start -/

/-- C10: with an empty user name `startRegistration` returns the HTTP error
400 `username required`, which the error handler sends with status 400, and
the world is as before: no challenge drawn, no call to the store. -/
theorem startRegistration_empty_name (env : Env) (b : startRegistrationResponse) (w : World)
    (hname : b.User.Name = "") :
    startRegistration env b w = (.failed (.http 400 "username required"), w) ∧
    (HTTPErrorHandler (.http 400 "username required")).1 = 400 := by
  constructor
  · simp [startRegistration, hname]
  · simp [HTTPErrorHandler]

/-- Witness for C10: a registration start without a user name. -/
theorem startRegistration_empty_name_witness :
    startRegistration envBound (startRegOf "" "phone") world0 =
      (.failed (.http 400 "username required"), world0) ∧
    (HTTPErrorHandler (.http 400 "username required")).1 = 400 :=
  startRegistration_empty_name envBound (startRegOf "" "phone") world0 rfl

/-! ## Single use of a challenge -/

/-- C2: a device holds the non-empty pending challenge `C` and the verifier
accepts the response against no challenge but `C`.  Then two calls of
`finishRegistration` in sequence do not both succeed: after a successful first
call the second one hands the verifier the empty challenge and ends without a
response (on the nil device, after the rollback).  Likewise two calls of
`finishAuthentication`: after a successful first call the second one hands the
verifier the empty challenge and returns the verifier's error.  With a
response valid for `C` and a store that performs its reads and writes the first
call does succeed. -/
theorem finish_twice_single_use (env : Env) (b : finishResponse) (w : World)
    (entry : dbItem) (device : dbDevice)
    (hrec : mapGet w.files b.User.Name = some entry)
    (hdev : entry.device b.DeviceName = some device)
    (hC : device.Challenge ≠ [])
    (hreg : ∀ chal, env.validateRegistration b.Credential chal env.origin false = none →
      chal = device.Challenge)
    (hauth : ∀ chal uid, env.validateAuthentication b.Credential chal env.origin uid = none →
      chal = device.Challenge) :
    ((finishRegistration env b w).1.isSuccess = true →
      finishRegistration env b (finishRegistration env b w).2 =
        (.nilDereference,
          { files := (finishRegistration env b w).2.files
            draws := (finishRegistration env b w).2.draws
            trace := (finishRegistration env b w).2.trace ++
              [Event.Read b.User.Name,
               Event.ValidateRegistration b.Credential [] env.origin false] })) ∧
    ((finishRegistration env b w).1.isSuccess &&
      (finishRegistration env b (finishRegistration env b w).2).1.isSuccess) = false ∧
    ((finishAuthentication env b w).1.isSuccess = true →
      ∃ err written,
        env.validateAuthentication b.Credential [] env.origin (stringOfBytes entry.User.ID) =
          some err ∧
        finishAuthentication env b (finishAuthentication env b w).2 =
          (.failed err,
            { files := mapSet (finishAuthentication env b w).2.files b.User.Name written
              draws := (finishAuthentication env b w).2.draws
              trace := (finishAuthentication env b w).2.trace ++
                [Event.Read b.User.Name,
                 Event.Write b.User.Name written,
                 Event.ValidateAuthentication b.Credential [] env.origin
                   (stringOfBytes entry.User.ID)] })) ∧
    ((finishAuthentication env b w).1.isSuccess &&
      (finishAuthentication env b (finishAuthentication env b w).2).1.isSuccess) = false ∧
    (env.readFault b.User.Name = none → env.writeFault b.User.Name = none →
      env.validateRegistration b.Credential device.Challenge env.origin false = none →
      (finishRegistration env b w).1.isSuccess = true) ∧
    (env.readFault b.User.Name = none → env.writeFault b.User.Name = none →
      env.validateAuthentication b.Credential device.Challenge env.origin
        (stringOfBytes entry.User.ID) = none →
      (finishAuthentication env b w).1.isSuccess = true) := by
  obtain ⟨m, hm, hget⟩ := device_some_devices entry b.DeviceName device hdev
  have hregEmpty : ∃ err, env.validateRegistration b.Credential [] env.origin false = some err := by
    cases hv : env.validateRegistration b.Credential [] env.origin false with
    | none => exact absurd (hreg [] hv).symm hC
    | some err => exact ⟨err, rfl⟩
  have hauthEmpty : ∃ err, env.validateAuthentication b.Credential [] env.origin
      (stringOfBytes entry.User.ID) = some err := by
    cases hv : env.validateAuthentication b.Credential [] env.origin
        (stringOfBytes entry.User.ID) with
    | none => exact absurd (hauth [] _ hv).symm hC
    | some err => exact ⟨err, rfl⟩
  have reg2 : (finishRegistration env b w).1.isSuccess = true →
      finishRegistration env b (finishRegistration env b w).2 =
        (.nilDereference,
          { files := (finishRegistration env b w).2.files
            draws := (finishRegistration env b w).2.draws
            trace := (finishRegistration env b w).2.trace ++
              [Event.Read b.User.Name,
               Event.ValidateRegistration b.Credential [] env.origin false] }) := by
    intro hs
    cases hread : env.readFault b.User.Name with
    | some e => simp [finishRegistration, dbRead, hread, Outcome.isSuccess] at hs
    | none =>
      cases hv : env.validateRegistration b.Credential device.Challenge env.origin false with
      | some e =>
        rw [finishRegistration_run_reject env b w entry device e hread hrec hdev hv] at hs
        simp [Outcome.isSuccess] at hs
      | none =>
        cases hwrite : env.writeFault b.User.Name with
        | some e =>
          simp [finishRegistration, dbRead, hread, hrec, dbItem.device, hget,
            ValidateRegistration, hv, dbWrite, hwrite, hm, Outcome.isSuccess] at hs
        | none =>
          obtain ⟨err, herr⟩ := hregEmpty
          rw [finishRegistration_run_accept env b w entry m device hread hwrite hrec hm hget hv]
          exact finishRegistration_run_reject env b _ (boundEntry entry m b device)
            { device with
              Challenge := []
              CredentialID := jsonString (stringOfBytes b.Credential.RawID) } err
            hread (by simp [mapGet_mapSet_self])
            (by simp [boundEntry, dbItem.device, mapGet_mapSet_self]) herr
  have auth2 : (finishAuthentication env b w).1.isSuccess = true →
      ∃ err written,
        env.validateAuthentication b.Credential [] env.origin (stringOfBytes entry.User.ID) =
          some err ∧
        finishAuthentication env b (finishAuthentication env b w).2 =
          (.failed err,
            { files := mapSet (finishAuthentication env b w).2.files b.User.Name written
              draws := (finishAuthentication env b w).2.draws
              trace := (finishAuthentication env b w).2.trace ++
                [Event.Read b.User.Name,
                 Event.Write b.User.Name written,
                 Event.ValidateAuthentication b.Credential [] env.origin
                   (stringOfBytes entry.User.ID)] }) := by
    intro hs
    cases hread : env.readFault b.User.Name with
    | some e => simp [finishAuthentication, dbRead, hread, Outcome.isSuccess] at hs
    | none =>
      cases hwrite : env.writeFault b.User.Name with
      | some e =>
        simp [finishAuthentication, dbRead, hread, hrec, dbItem.device, hget, dbWrite, hwrite,
          hm, Outcome.isSuccess] at hs
      | none =>
        obtain ⟨err, herr⟩ := hauthEmpty
        refine ⟨err, consumedEntry (consumedEntry entry m b.DeviceName device)
          (mapSet m b.DeviceName { device with Challenge := [] }) b.DeviceName
          { device with Challenge := [] }, herr, ?_⟩
        rw [finishAuthentication_run env b w entry m device hread hwrite hrec hm hget]
        have h2 := finishAuthentication_run env b
          { files := mapSet w.files b.User.Name (consumedEntry entry m b.DeviceName device)
            draws := w.draws
            trace := w.trace ++
              [Event.Read b.User.Name,
               Event.Write b.User.Name (consumedEntry entry m b.DeviceName device),
               Event.ValidateAuthentication b.Credential device.Challenge env.origin
                 (stringOfBytes entry.User.ID)] }
          (consumedEntry entry m b.DeviceName device)
          (mapSet m b.DeviceName { device with Challenge := [] })
          { device with Challenge := [] } hread hwrite (by simp [mapGet_mapSet_self])
          (by simp [consumedEntry]) (by simp [mapGet_mapSet_self])
        have hid : (consumedEntry entry m b.DeviceName device).User.ID = entry.User.ID := rfl
        rw [hid] at h2
        simp only [herr] at h2
        exact h2
  refine ⟨reg2, ?_, auth2, ?_, ?_, ?_⟩
  · cases hs : (finishRegistration env b w).1.isSuccess with
    | false => rfl
    | true => simp [reg2 hs, Outcome.isSuccess]
  · cases hs : (finishAuthentication env b w).1.isSuccess with
    | false => rfl
    | true =>
      obtain ⟨err, written, _, h2⟩ := auth2 hs
      simp [h2, Outcome.isSuccess]
  · intro hread hwrite hv
    rw [finishRegistration_run_accept env b w entry m device hread hwrite hrec hm hget hv]
    simp [Outcome.isSuccess]
  · intro hread hwrite hv
    rw [finishAuthentication_run env b w entry m device hread hwrite hrec hm hget]
    simp [hv, Outcome.isSuccess]

/-- Witness for C2: Alice sends the response bound to `chalC` twice, to either
finish handler. -/
theorem finish_twice_single_use_witness :
    (finishRegistration envBound finishAlice world0).1.isSuccess = true ∧
    (finishRegistration envBound finishAlice
      (finishRegistration envBound finishAlice world0).2).1 = .nilDereference ∧
    (finishAuthentication envBound finishAlice world0).1.isSuccess = true ∧
    ((finishAuthentication envBound finishAlice world0).1.isSuccess &&
      (finishAuthentication envBound finishAlice
        (finishAuthentication envBound finishAlice world0).2).1.isSuccess) = false :=
  have h := finish_twice_single_use envBound finishAlice world0 aliceItem alicePhone
    (by decide) (by decide) (by decide)
    (fun chal hv => by
      by_cases hc : chal = chalC
      · exact hc
      · simp [envBound, hc] at hv)
    (fun chal _ hv => by
      by_cases hc : chal = chalC
      · exact hc
      · simp [envBound, hc] at hv)
  ⟨h.2.2.2.2.1 rfl rfl (by decide),
   congrArg Prod.fst (h.1 (h.2.2.2.2.1 rfl rfl (by decide))),
   h.2.2.2.2.2 rfl rfl (by decide),
   h.2.2.2.1⟩

/-! ## Registration start: identifier and device record -/

theorem storeDevice_run (env : Env) (b : startRegistrationResponse) (chal : Bytes)
    (entry : dbItem) (w : World) :
    storeDevice env b chal entry w =
      match env.writeFault b.User.Name with
      | some err =>
        (.failed err,
          { files := w.files, draws := w.draws
            trace := w.trace ++ [Event.Write b.User.Name (pendingEntry b chal entry)] })
      | none =>
        (.response 201 (.registration (descriptor chal (pendingEntry b chal entry).User)),
          { files := mapSet w.files b.User.Name (pendingEntry b chal entry), draws := w.draws
            trace := w.trace ++ [Event.Write b.User.Name (pendingEntry b chal entry)] }) := by
  obtain ⟨user, devices⟩ := entry
  cases devices <;> cases hw : env.writeFault b.User.Name <;>
    simp [storeDevice, dbWrite, hw, pendingEntry, descriptor]

theorem pendingEntry_device (b : startRegistrationResponse) (chal : Bytes) (entry : dbItem) :
    (pendingEntry b chal entry).device b.DeviceName =
      some { Name := b.DeviceName, Origin := b.Origin, Challenge := chal, CredentialID := "" } := by
  simp [pendingEntry, dbItem.device, mapGet_mapSet_self]

theorem startRegistration_run_existing (env : Env) (b : startRegistrationResponse) (w : World)
    (chal : Bytes) (old : dbItem)
    (hname : b.User.Name ≠ "")
    (hchal : env.newChallenge w.draws = .ok chal)
    (hread : env.readFault b.User.Name = none)
    (hrec : mapGet w.files b.User.Name = some old) :
    startRegistration env b w =
      storeDevice env b chal old
        { files := w.files, draws := w.draws + 1
          trace := w.trace ++ [Event.NewChallenge, Event.Read b.User.Name] } := by
  simp [startRegistration, hname, NewChallenge, hchal, dbRead, hread, hrec]

theorem startRegistration_run_fresh (env : Env) (b : startRegistrationResponse) (w : World)
    (chal : Bytes)
    (hname : b.User.Name ≠ "")
    (hchal : env.newChallenge w.draws = .ok chal)
    (hread : env.readFault b.User.Name = none)
    (hrec : mapGet w.files b.User.Name = none) :
    startRegistration env b w =
      storeDevice env b chal (freshEntry env b w)
        { files := w.files, draws := w.draws + 2
          trace := w.trace ++ [Event.NewChallenge, Event.Read b.User.Name, Event.NewUUID] } := by
  have hstat := statError_stat b.User.Name
  simp [startRegistration, hname, NewChallenge, hchal, dbRead, hread, hrec, hstat, uuidNew,
    freshEntry]

theorem startRegistration_run_fault (env : Env) (b : startRegistrationResponse) (w : World)
    (chal : Bytes) (e : GoError)
    (hname : b.User.Name ≠ "")
    (hchal : env.newChallenge w.draws = .ok chal)
    (hread : env.readFault b.User.Name = some e) :
    startRegistration env b w =
      if stringsHasPrefix e.Error "stat" = true then
        storeDevice env b chal (freshEntry env b w)
          { files := w.files, draws := w.draws + 2
            trace := w.trace ++ [Event.NewChallenge, Event.Read b.User.Name, Event.NewUUID] }
      else
        (.failed e,
          { files := w.files, draws := w.draws + 1
            trace := w.trace ++ [Event.NewChallenge, Event.Read b.User.Name] }) := by
  by_cases hp : stringsHasPrefix e.Error "stat" = true <;>
    simp [startRegistration, hname, NewChallenge, hchal, dbRead, hread, hp, uuidNew, freshEntry]

theorem storeDevice_response (env : Env) (b : startRegistrationResponse) (chal : Bytes)
    (entry : dbItem) (w : World) (status : Nat) (body : Body) (w2 : World)
    (hrun : storeDevice env b chal entry w = (.response status body, w2)) :
    status = 201 ∧
    body = .registration (descriptor chal (pendingEntry b chal entry).User) ∧
    w2 = { files := mapSet w.files b.User.Name (pendingEntry b chal entry), draws := w.draws
           trace := w.trace ++ [Event.Write b.User.Name (pendingEntry b chal entry)] } := by
  rw [storeDevice_run] at hrun
  cases hw : env.writeFault b.User.Name with
  | some err => simp [hw] at hrun
  | none =>
    simp only [hw, Prod.mk.injEq, Outcome.response.injEq] at hrun
    obtain ⟨⟨h1, h2⟩, h3⟩ := hrun
    exact ⟨h1.symm, h2.symm, h3.symm⟩

/-- C5: a `startRegistration` that answers (the user name is then non-empty)
has minted a challenge and written, as its last call, a record whose entry
for the device name is a new device record with the given name and origin,
that challenge and an empty credential identifier, whatever the record held
under that device name before; the record is in the store afterwards and the
descriptor in the answer carries the same challenge. -/
theorem startRegistration_device_record (env : Env) (b : startRegistrationResponse)
    (w : World) (status : Nat) (body : Body) (w2 : World)
    (hrun : startRegistration env b w = (.response status body, w2)) :
    b.User.Name ≠ "" ∧
    ∃ (chal : Bytes) (written : dbItem) (parts : RegistrationParts),
      env.newChallenge w.draws = .ok chal ∧
      status = 201 ∧ body = .registration parts ∧
      parts.Challenge = chal ∧
      written.device b.DeviceName =
        some { Name := b.DeviceName, Origin := b.Origin, Challenge := chal,
               CredentialID := "" } ∧
      (w2.trace = w.trace ++
          [Event.NewChallenge, Event.Read b.User.Name, Event.Write b.User.Name written] ∨
        w2.trace = w.trace ++
          [Event.NewChallenge, Event.Read b.User.Name, Event.NewUUID,
           Event.Write b.User.Name written]) ∧
      w2.files = mapSet w.files b.User.Name written ∧
      mapGet w2.files b.User.Name = some written := by
  have hname : b.User.Name ≠ "" := by
    intro h
    simp [startRegistration, h] at hrun
  refine ⟨hname, ?_⟩
  cases hchal : env.newChallenge w.draws with
  | error e => simp [startRegistration, hname, NewChallenge, hchal] at hrun
  | ok chal =>
    have fresh : storeDevice env b chal (freshEntry env b w)
          { files := w.files, draws := w.draws + 2
            trace := w.trace ++ [Event.NewChallenge, Event.Read b.User.Name, Event.NewUUID] } =
          (.response status body, w2) →
        ∃ (chal2 : Bytes) (written : dbItem) (parts : RegistrationParts),
          (Except.ok chal : Except GoError Bytes) = Except.ok chal2 ∧
          status = 201 ∧ body = .registration parts ∧
          parts.Challenge = chal2 ∧
          written.device b.DeviceName =
            some { Name := b.DeviceName, Origin := b.Origin, Challenge := chal2,
                   CredentialID := "" } ∧
          (w2.trace = w.trace ++
              [Event.NewChallenge, Event.Read b.User.Name, Event.Write b.User.Name written] ∨
            w2.trace = w.trace ++
              [Event.NewChallenge, Event.Read b.User.Name, Event.NewUUID,
               Event.Write b.User.Name written]) ∧
          w2.files = mapSet w.files b.User.Name written ∧
          mapGet w2.files b.User.Name = some written := by
      intro hs
      obtain ⟨h1, h2, h3⟩ := storeDevice_response env b chal _ _ status body w2 hs
      refine ⟨chal, pendingEntry b chal (freshEntry env b w), _, rfl, h1, h2, rfl,
        pendingEntry_device b chal _, Or.inr ?_, ?_, ?_⟩
      · simp [h3]
      · simp [h3]
      · simp [h3, mapGet_mapSet_self]
    cases hread : env.readFault b.User.Name with
    | some e =>
      rw [startRegistration_run_fault env b w chal e hname hchal hread] at hrun
      by_cases hp : stringsHasPrefix e.Error "stat" = true
      · rw [if_pos hp] at hrun
        exact fresh hrun
      · rw [if_neg hp] at hrun
        simp at hrun
    | none =>
      cases hrec : mapGet w.files b.User.Name with
      | none =>
        rw [startRegistration_run_fresh env b w chal hname hchal hread hrec] at hrun
        exact fresh hrun
      | some old =>
        rw [startRegistration_run_existing env b w chal old hname hchal hread hrec] at hrun
        obtain ⟨h1, h2, h3⟩ := storeDevice_response env b chal _ _ status body w2 hrun
        refine ⟨chal, pendingEntry b chal old, _, rfl, h1, h2, rfl,
          pendingEntry_device b chal _, Or.inl ?_, ?_, ?_⟩
        · simp [h3]
        · simp [h3]
        · simp [h3, mapGet_mapSet_self]

/-- C4: for a non-empty user name, a minted challenge and a store that
performs the read and the write: when the store holds a record for the user
name, `startRegistration` draws no identifier, and the record it writes and
the user in the descriptor carry the identifier stored before the call; when
the store holds none, it draws one identifier, writes a record with that
identifier and the user name, and a read right afterwards returns that
record. -/
theorem startRegistration_identifier (env : Env) (b : startRegistrationResponse) (w : World)
    (chal : Bytes)
    (hname : b.User.Name ≠ "")
    (hchal : env.newChallenge w.draws = .ok chal)
    (hread : env.readFault b.User.Name = none)
    (hwrite : env.writeFault b.User.Name = none) :
    (∀ old, mapGet w.files b.User.Name = some old →
      ∃ (written : dbItem) (parts : RegistrationParts),
        startRegistration env b w =
          (.response 201 (.registration parts),
            { files := mapSet w.files b.User.Name written
              draws := w.draws + 1
              trace := w.trace ++
                [Event.NewChallenge, Event.Read b.User.Name,
                 Event.Write b.User.Name written] }) ∧
        written.User.ID = old.User.ID ∧
        parts.User.ID = old.User.ID) ∧
    (mapGet w.files b.User.Name = none →
      ∃ (written : dbItem) (parts : RegistrationParts),
        startRegistration env b w =
          (.response 201 (.registration parts),
            { files := mapSet w.files b.User.Name written
              draws := w.draws + 2
              trace := w.trace ++
                [Event.NewChallenge, Event.Read b.User.Name, Event.NewUUID,
                 Event.Write b.User.Name written] }) ∧
        written.User.ID = bytesOfString (env.newUUID (w.draws + 1)) ∧
        written.User.Name = b.User.Name ∧
        parts.User.ID = written.User.ID ∧
        (dbRead env (startRegistration env b w).2 b.User.Name).1 = .ok written) := by
  constructor
  · intro old hrec
    refine ⟨pendingEntry b chal old, descriptor chal (pendingEntry b chal old).User, ?_, rfl, rfl⟩
    rw [startRegistration_run_existing env b w chal old hname hchal hread hrec, storeDevice_run]
    simp [hwrite]
  · intro hrec
    have hrun : startRegistration env b w =
        (.response 201 (.registration
            (descriptor chal (pendingEntry b chal (freshEntry env b w)).User)),
          { files := mapSet w.files b.User.Name (pendingEntry b chal (freshEntry env b w))
            draws := w.draws + 2
            trace := w.trace ++
              [Event.NewChallenge, Event.Read b.User.Name, Event.NewUUID,
               Event.Write b.User.Name (pendingEntry b chal (freshEntry env b w))] }) := by
      rw [startRegistration_run_fresh env b w chal hname hchal hread hrec, storeDevice_run]
      simp [hwrite]
    refine ⟨pendingEntry b chal (freshEntry env b w), _, hrun, rfl, rfl, rfl, ?_⟩
    rw [hrun]
    simp [dbRead, hread, mapGet_mapSet_self]

/-- Witness for C5: Alice starts a registration for `phone`, which is already
bound to the credential identifier `AB`. -/
theorem startRegistration_device_record_witness :
    "alice" ≠ "" ∧
    ∃ (chal : Bytes) (written : dbItem) (parts : RegistrationParts),
      envBound.newChallenge 0 = .ok chal ∧
      201 = 201 ∧
      Body.registration (descriptor [7, 8]
        { ID := [117, 49], Name := "alice", DisplayName := "A." }) = .registration parts ∧
      parts.Challenge = chal ∧
      written.device "phone" =
        some { Name := "phone", Origin := "http://localhost:8080", Challenge := chal,
               CredentialID := "" } ∧
      ((startRegistration envBound (startRegOf "alice" "phone") worldBound).2.trace = [] ++
          [Event.NewChallenge, Event.Read "alice", Event.Write "alice" written] ∨
        (startRegistration envBound (startRegOf "alice" "phone") worldBound).2.trace = [] ++
          [Event.NewChallenge, Event.Read "alice", Event.NewUUID,
           Event.Write "alice" written]) ∧
      (startRegistration envBound (startRegOf "alice" "phone") worldBound).2.files =
        mapSet worldBound.files "alice" written ∧
      mapGet (startRegistration envBound (startRegOf "alice" "phone") worldBound).2.files
        "alice" = some written :=
  startRegistration_device_record envBound (startRegOf "alice" "phone") worldBound 201
    (.registration (descriptor [7, 8] { ID := [117, 49], Name := "alice", DisplayName := "A." }))
    (startRegistration envBound (startRegOf "alice" "phone") worldBound).2 (by decide)

/-- Witness for C4: a second device for Alice, who has a record, and a first
device for Bob, who has none. -/
theorem startRegistration_identifier_witness :
    (∃ (written : dbItem) (parts : RegistrationParts),
      startRegistration envBound (startRegOf "alice" "tablet") world0 =
        (.response 201 (.registration parts),
          { files := mapSet world0.files "alice" written
            draws := 0 + 1
            trace := [] ++
              [Event.NewChallenge, Event.Read "alice", Event.Write "alice" written] }) ∧
      written.User.ID = [117, 49] ∧
      parts.User.ID = [117, 49]) ∧
    (∃ (written : dbItem) (parts : RegistrationParts),
      startRegistration envBound (startRegOf "bob" "phone") world0 =
        (.response 201 (.registration parts),
          { files := mapSet world0.files "bob" written
            draws := 0 + 2
            trace := [] ++
              [Event.NewChallenge, Event.Read "bob", Event.NewUUID,
               Event.Write "bob" written] }) ∧
      written.User.ID = bytesOfString "u2" ∧
      written.User.Name = "bob" ∧
      parts.User.ID = written.User.ID ∧
      (dbRead envBound (startRegistration envBound (startRegOf "bob" "phone") world0).2
        "bob").1 = .ok written) :=
  ⟨(startRegistration_identifier envBound (startRegOf "alice" "tablet") world0 [7, 8]
      (by decide) rfl rfl rfl).1 aliceItem (by decide),
   (startRegistration_identifier envBound (startRegOf "bob" "phone") world0 [7, 8]
      (by decide) rfl rfl rfl).2 (by decide)⟩

/-! ## Requests that meet a nil device -/

theorem finishRegistration_unknown_user (env : Env) (b : finishResponse) (w : World)
    (hread : env.readFault b.User.Name = none)
    (hrec : mapGet w.files b.User.Name = none) :
    finishRegistration env b w =
      (.failed (statError b.User.Name),
        { files := w.files, draws := w.draws
          trace := w.trace ++ [Event.Read b.User.Name] }) := by
  simp [finishRegistration, dbRead, hread, hrec]

theorem finishRegistration_unknown_device (env : Env) (b : finishResponse) (w : World)
    (entry : dbItem)
    (hread : env.readFault b.User.Name = none)
    (hrec : mapGet w.files b.User.Name = some entry)
    (hdev : entry.device b.DeviceName = none) :
    finishRegistration env b w =
      (.nilDereference,
        { files := w.files, draws := w.draws
          trace := w.trace ++ [Event.Read b.User.Name] }) := by
  simp [finishRegistration, dbRead, hread, hrec, hdev]

theorem startAuthentication_unknown_user (env : Env) (b : startAuthResponse) (w : World)
    (hread : env.readFault b.User.Name = none)
    (hrec : mapGet w.files b.User.Name = none) :
    startAuthentication env b w =
      (.failed (statError b.User.Name),
        { files := w.files, draws := w.draws
          trace := w.trace ++ [Event.Read b.User.Name] }) := by
  simp [startAuthentication, dbRead, hread, hrec]

theorem startAuthentication_unknown_device (env : Env) (b : startAuthResponse) (w : World)
    (entry : dbItem) (chal : Bytes)
    (hread : env.readFault b.User.Name = none)
    (hrec : mapGet w.files b.User.Name = some entry)
    (hdev : entry.device b.DeviceName = none)
    (hchal : env.newChallenge w.draws = .ok chal) :
    startAuthentication env b w =
      (.nilDereference,
        { files := w.files, draws := w.draws + 1
          trace := w.trace ++ [Event.Read b.User.Name, Event.NewChallenge] }) := by
  simp [startAuthentication, dbRead, hread, hrec, hdev, NewChallenge, hchal]

/-- C1: at the store of Alice with `phone` pending and a verifier that
rejects the response, `finishRegistration` removes the device from the entry
in memory and then dereferences the nil device: it ends without a response,
returns no error and makes no write.  The store still holds `phone`, and the
following `startAuthentication` for Alice and `phone` answers 201. -/
theorem finishRegistration_rejected_no_rollback :
    finishRegistration envReject finishAlice world0 =
      (.nilDereference,
        { files := [("alice", aliceItem)]
          draws := 0
          trace := [Event.Read "alice",
            Event.ValidateRegistration cred0 chalC "http://localhost:8080" false] }) ∧
    (startAuthentication envReject (startAuthOf "alice" "phone")
        (finishRegistration envReject finishAlice world0).2).1 =
      .response 201 (.startAuth
        { Challenge := base64Encode [7, 8]
          CredentialID := ""
          DeviceName := ""
          User := { ID := [], Name := "", DisplayName := "" } }) := by
  decide

/-- C7: at the store of Alice with the single device `phone`,
`startAuthentication` for Alice and the device `tablet` mints a challenge and
then dereferences the nil device: it ends without a response and returns no
error; the store is as before. -/
theorem startAuthentication_unknown_device_panics :
    startAuthentication envBound (startAuthOf "alice" "tablet") world0 =
      (.nilDereference,
        { files := [("alice", aliceItem)]
          draws := 1
          trace := [Event.Read "alice", Event.NewChallenge] }) := by
  decide

/-- C9: at the store of Alice with the single device `phone`,
`finishRegistration` for Alice and the device `tablet` dereferences the nil
device before the verifier is called: it ends without a response and returns
no error; nothing is written. -/
theorem finishRegistration_unknown_device_panics :
    finishRegistration envBound finishTablet world0 =
      (.nilDereference,
        { files := [("alice", aliceItem)]
          draws := 0
          trace := [Event.Read "alice"] }) := by
  decide

/-! ## base64 test vectors -/

theorem base64Encode_vectors :
    base64Encode [] = "" ∧ base64Encode [102] = "Zg==" ∧ base64Encode [102, 111] = "Zm8=" ∧
    base64Encode [102, 111, 111] = "Zm9v" ∧ base64Encode [102, 111, 111, 98] = "Zm9vYg==" ∧
    base64Encode [255, 255, 254] = "///+" := by
  decide

end WebauthnDemo
